import Mathlib

/-!
Shallow embedding of the earthquake-simulation computation core
(attenuation model, MMI classifier, damage model) and proofs of the
specified properties.

JS `number` values are modelled as exact reals; where a claim involves
NaN, an `Option ℝ` variant is used (`none` plays the role of NaN, and
every ordered comparison against `none` is false, matching JS
comparison semantics).  JS `Math.round` is `round` on ℝ (both are
`⌊x + 1/2⌋`), `Math.log10` is `Real.logb 10`, `Math.exp` is `Real.exp`,
`Math.sqrt` is `Real.sqrt`, and `Math.max`/`Math.min` are `max`/`min`.
-/

namespace ChileQuake

/-! ## Attenuation model (src/utils/attenuationModel.js) -/

/-- Constants `ATTENUATION_CONSTANTS` from the source: `I = a + b*M - c*log10(R) - d*R`. -/
structure AttenuationConstants where
  a : ℝ
  b : ℝ
  c : ℝ
  d : ℝ

def ATTENUATION_CONSTANTS : AttenuationConstants :=
  { a := -3.5, b := 1.8, c := 3.5, d := 0.002 }

/-- Error raised by `calculateIntensity`'s input validation; each
constructor carries the offending value (the JS code throws an `Error`
whose message names the value and the valid range). -/
inductive AttenuationError (α : Type) where
  | invalidMagnitude (magnitude : α)
  | invalidDepth (depth : α)
  | invalidDistance (distance : α)
  deriving DecidableEq

/-- The arithmetic part of `calculateIntensity` (after validation):
hypocentral distance, floor of 1 km, attenuation formula, floor at 0. -/
noncomputable def calculateIntensityCore (magnitude depth distance : ℝ) : ℝ :=
  let hypocentralDistance := Real.sqrt (distance * distance + depth * depth)
  let R := max hypocentralDistance 1.0
  let intensity := ATTENUATION_CONSTANTS.a + ATTENUATION_CONSTANTS.b * magnitude
    - ATTENUATION_CONSTANTS.c * Real.logb 10 R - ATTENUATION_CONSTANTS.d * R
  max intensity 0

/-- Function `calculateIntensity(magnitude, depth, distance)`: validation (throw on
out-of-range magnitude/depth/negative distance, in source order), then the
attenuation formula. -/
noncomputable def calculateIntensity (magnitude depth distance : ℝ) :
    Except (AttenuationError ℝ) ℝ :=
  if magnitude < 0 ∨ magnitude > 10 then .error (.invalidMagnitude magnitude)
  else if depth < 0 ∨ depth > 700 then .error (.invalidDepth depth)
  else if distance < 0 then .error (.invalidDistance distance)
  else .ok (calculateIntensityCore magnitude depth distance)

/-- JS `x < c` where `x` may be NaN (`none`): false on NaN. -/
def jsIsLt (x : Option ℝ) (c : ℝ) : Prop := x.elim False (fun v => v < c)

/-- JS `x > c` where `x` may be NaN (`none`): false on NaN. -/
def jsIsGt (x : Option ℝ) (c : ℝ) : Prop := x.elim False (fun v => c < v)

noncomputable instance (x : Option ℝ) (c : ℝ) : Decidable (jsIsLt x c) :=
  match x with
  | none => isFalse (fun h => h)
  | some v => inferInstanceAs (Decidable (v < c))

noncomputable instance (x : Option ℝ) (c : ℝ) : Decidable (jsIsGt x c) :=
  match x with
  | none => isFalse (fun h => h)
  | some v => inferInstanceAs (Decidable (c < v))

/-- NaN-aware variant of `calculateIntensity`: the validation comparisons
follow JS semantics (false when the operand is NaN), and a NaN input that
survives validation propagates to a NaN result. -/
noncomputable def jsCalculateIntensity (magnitude depth distance : Option ℝ) :
    Except (AttenuationError (Option ℝ)) (Option ℝ) :=
  if jsIsLt magnitude 0 ∨ jsIsGt magnitude 10 then .error (.invalidMagnitude magnitude)
  else if jsIsLt depth 0 ∨ jsIsGt depth 700 then .error (.invalidDepth depth)
  else if jsIsLt distance 0 then .error (.invalidDistance distance)
  else
    match magnitude, depth, distance with
    | some m, some d, some r => .ok (some (calculateIntensityCore m d r))
    | _, _, _ => .ok none

/-! ## Damage model (src/utils/damageModel.js) -/

/-- Parameters `DAMAGE_PARAMETERS` from the source. -/
structure DamageParameters where
  k : ℝ
  threshold : ℝ

def DAMAGE_PARAMETERS : DamageParameters := { k := 1.5, threshold := 6.0 }

/-- Function `estimateDamage(intensityValue)`: 0 for negative input, otherwise the
logistic curve `100 / (1 + e^(-k*(I - threshold)))` clamped to [0,100].
(The JS NaN guard `isNaN(intensityValue)` is vacuous over ℝ.) -/
noncomputable def estimateDamage (intensityValue : ℝ) : ℝ :=
  if intensityValue < 0 then 0
  else
    let damagePercent :=
      100 / (1 + Real.exp (-DAMAGE_PARAMETERS.k * (intensityValue - DAMAGE_PARAMETERS.threshold)))
    max 0 (min 100 damagePercent)

/-- A damage severity category as returned by `getDamageCategory`. -/
structure DamageCategory where
  category : String
  description : String
  color : String
  severity : ℕ
  deriving DecidableEq

def noneCategory : DamageCategory :=
  { category := "None", description := "No significant damage expected",
    color := "#10B981", severity := 0 }

def veryLightCategory : DamageCategory :=
  { category := "Very Light", description := "Minor cosmetic damage, no structural issues",
    color := "#84CC16", severity := 1 }

def lightCategory : DamageCategory :=
  { category := "Light", description := "Some cracks in walls, minor damage to chimneys",
    color := "#FDE047", severity := 2 }

def moderateCategory : DamageCategory :=
  { category := "Moderate",
    description := "Damage to chimneys, plaster falls, some structural damage",
    color := "#FB923C", severity := 3 }

def heavyCategory : DamageCategory :=
  { category := "Heavy", description := "Significant structural damage, partial collapse possible",
    color := "#F87171", severity := 4 }

def veryHeavyCategory : DamageCategory :=
  { category := "Very Heavy", description := "Severe structural damage, widespread collapse",
    color := "#DC2626", severity := 5 }

/-- Function `getDamageCategory(damagePercent)`: six-way comparison chain; the final
`else` branch (Very Heavy) catches everything not below 70. -/
noncomputable def getDamageCategory (damagePercent : ℝ) : DamageCategory :=
  if damagePercent < 5 then noneCategory
  else if damagePercent < 15 then veryLightCategory
  else if damagePercent < 30 then lightCategory
  else if damagePercent < 50 then moderateCategory
  else if damagePercent < 70 then heavyCategory
  else veryHeavyCategory

/-- NaN-aware variant of `getDamageCategory`: each `<` is false on NaN, so
NaN falls through every branch to the final `else`. -/
noncomputable def jsGetDamageCategory (damagePercent : Option ℝ) : DamageCategory :=
  if jsIsLt damagePercent 5 then noneCategory
  else if jsIsLt damagePercent 15 then veryLightCategory
  else if jsIsLt damagePercent 30 then lightCategory
  else if jsIsLt damagePercent 50 then moderateCategory
  else if jsIsLt damagePercent 70 then heavyCategory
  else veryHeavyCategory

/-! ## MMI classifier (src/utils/mmiScale.js) -/

/-- One entry of the `MMI_SCALE` table.  `maxIntensity` is `EReal` because
the top band's upper bound is `Infinity` in the source. -/
structure MMIEntry where
  level : String
  numericLevel : ℕ
  minIntensity : ℝ
  maxIntensity : EReal
  name : String
  description : String
  shaking : String
  damage : String
  color : String

def mmiI : MMIEntry :=
  { level := "I", numericLevel := 1, minIntensity := 0, maxIntensity := ((1.5 : ℝ) : EReal),
    name := "Not felt",
    description := "Not felt except by a very few under especially favorable conditions.",
    shaking := "Not felt", damage := "None", color := "#FFFFFF" }

def mmiII : MMIEntry :=
  { level := "II", numericLevel := 2, minIntensity := 1.5, maxIntensity := ((2.5 : ℝ) : EReal),
    name := "Weak",
    description := "Felt only by a few persons at rest, especially on upper floors of buildings.",
    shaking := "Weak", damage := "None", color := "#ACD8E9" }

def mmiIII : MMIEntry :=
  { level := "III", numericLevel := 3, minIntensity := 2.5, maxIntensity := ((3.5 : ℝ) : EReal),
    name := "Weak",
    description := "Felt quite noticeably by persons indoors. Many people do not recognize it as an earthquake. Standing motor cars may rock slightly.",
    shaking := "Weak", damage := "None", color := "#ACD8E9" }

def mmiIV : MMIEntry :=
  { level := "IV", numericLevel := 4, minIntensity := 3.5, maxIntensity := ((4.5 : ℝ) : EReal),
    name := "Light",
    description := "Felt indoors by many, outdoors by few. Sensation like heavy truck striking building. Dishes, windows, doors disturbed.",
    shaking := "Light", damage := "None", color := "#7BC5A6" }

def mmiV : MMIEntry :=
  { level := "V", numericLevel := 5, minIntensity := 4.5, maxIntensity := ((5.5 : ℝ) : EReal),
    name := "Moderate",
    description := "Felt by nearly everyone; many awakened. Some dishes, windows broken. Unstable objects overturned.",
    shaking := "Moderate", damage := "Very light", color := "#FDE357" }

def mmiVI : MMIEntry :=
  { level := "VI", numericLevel := 6, minIntensity := 5.5, maxIntensity := ((6.5 : ℝ) : EReal),
    name := "Strong",
    description := "Felt by all, many frightened. Some heavy furniture moved; a few instances of fallen plaster. Damage slight.",
    shaking := "Strong", damage := "Light", color := "#FDB462" }

def mmiVII : MMIEntry :=
  { level := "VII", numericLevel := 7, minIntensity := 6.5, maxIntensity := ((7.5 : ℝ) : EReal),
    name := "Very strong",
    description := "Damage negligible in buildings of good design and construction; slight to moderate in well-built ordinary structures; considerable damage in poorly built or badly designed structures.",
    shaking := "Very strong", damage := "Moderate", color := "#FB923C" }

def mmiVIII : MMIEntry :=
  { level := "VIII", numericLevel := 8, minIntensity := 7.5, maxIntensity := ((8.5 : ℝ) : EReal),
    name := "Severe",
    description := "Damage slight in specially designed structures; considerable damage in ordinary substantial buildings with partial collapse. Damage great in poorly built structures. Heavy furniture overturned.",
    shaking := "Severe", damage := "Moderate to heavy", color := "#F87171" }

def mmiIX : MMIEntry :=
  { level := "IX", numericLevel := 9, minIntensity := 8.5, maxIntensity := ((9.5 : ℝ) : EReal),
    name := "Violent",
    description := "Damage considerable in specially designed structures; well-designed frame structures thrown out of plumb. Buildings shifted off foundations. Ground cracked conspicuously.",
    shaking := "Violent", damage := "Heavy", color := "#DC2626" }

def mmiX : MMIEntry :=
  { level := "X", numericLevel := 10, minIntensity := 9.5, maxIntensity := ((10.5 : ℝ) : EReal),
    name := "Extreme",
    description := "Some well-built wooden structures destroyed; most masonry and frame structures destroyed with foundations. Rails bent.",
    shaking := "Extreme", damage := "Very heavy", color := "#991B1B" }

def mmiXI : MMIEntry :=
  { level := "XI", numericLevel := 11, minIntensity := 10.5, maxIntensity := ((11.5 : ℝ) : EReal),
    name := "Extreme",
    description := "Few, if any structures remain standing. Bridges destroyed. Rails bent greatly.",
    shaking := "Extreme", damage := "Very heavy", color := "#7F1D1D" }

def mmiXII : MMIEntry :=
  { level := "XII", numericLevel := 12, minIntensity := 11.5, maxIntensity := ⊤,
    name := "Extreme",
    description := "Total damage. Waves seen on ground surfaces. Objects thrown into the air.",
    shaking := "Extreme", damage := "Very heavy", color := "#450A0A" }

/-- The twelve-entry `MMI_SCALE` table, in source order. -/
def MMI_SCALE : List MMIEntry :=
  [mmiI, mmiII, mmiIII, mmiIV, mmiV, mmiVI, mmiVII, mmiVIII, mmiIX, mmiX, mmiXI, mmiXII]

/-- The loop condition of `getMMI`'s scan:
`intensityValue >= level.minIntensity && intensityValue < level.maxIntensity`. -/
def bandContains (e : MMIEntry) (x : ℝ) : Prop :=
  e.minIntensity ≤ x ∧ (x : EReal) < e.maxIntensity

noncomputable instance (e : MMIEntry) (x : ℝ) : Decidable (bandContains e x) :=
  inferInstanceAs (Decidable (_ ∧ _))

/-- Function `getMMI(intensityValue)`: negative input short-circuits to `MMI_SCALE[0]`;
otherwise scan the table in order for the first band whose half-open interval
contains the value, falling back to the last entry (MMI XII).
(The JS code returns a copy of the entry with the queried `intensityValue`
added; that extra field does not affect which band is returned.) -/
noncomputable def getMMI (intensityValue : ℝ) : MMIEntry :=
  if intensityValue < 0 then mmiI
  else ((MMI_SCALE.find? fun e => decide (bandContains e intensityValue)).getD mmiXII)

/-- NaN-aware variant of `getMMI`: the guard
`intensityValue < 0 || isNaN(intensityValue)` sends NaN to MMI I. -/
noncomputable def jsGetMMI : Option ℝ → MMIEntry
  | none => mmiI
  | some v => getMMI v

/-! ## Population impact (src/utils/damageModel.js, estimateAffectedPopulation) -/

structure PopulationImpact where
  total : ℝ
  affected : ℤ
  displaced : ℤ
  percentAffected : ℝ

/-- Function `estimateAffectedPopulation(totalPopulation, damagePercent)`:
negative inputs give the all-zero record; otherwise
`affectedPercent = min(damagePercent*1.2, 100)`,
`affected = round(total*affectedPercent/100)`,
`displacementFactor = max(0, (damagePercent-40)/60)`,
`displaced = round(affected*displacementFactor)`. -/
noncomputable def estimateAffectedPopulation (totalPopulation damagePercent : ℝ) :
    PopulationImpact :=
  if totalPopulation < 0 ∨ damagePercent < 0 then
    { total := 0, affected := 0, displaced := 0, percentAffected := 0 }
  else
    let affectedPercent := min (damagePercent * 1.2) 100
    let affected : ℤ := round (totalPopulation * affectedPercent / 100)
    let displacementFactor := max 0 ((damagePercent - 40) / 60)
    let displaced : ℤ := round ((affected : ℝ) * displacementFactor)
    { total := totalPopulation, affected := affected, displaced := displaced,
      percentAffected := ((round (affectedPercent * 10) : ℤ) : ℝ) / 10 }

/-! ## Casualty risk (src/utils/damageModel.js, estimateCasualtyRisk) -/

structure CasualtyEstimate where
  low : ℤ
  medium : ℤ
  high : ℤ
  description : String
  warning : Option String

/-- Function `estimateCasualtyRisk(totalPopulation, damagePercent)`: all-zero below
60% damage; otherwise `fatalityRate = ((damagePercent-60)/40)^2 * 0.01`,
`medium = round(total*rate)`, `low = round(medium*0.5)`, `high = round(medium*2)`. -/
noncomputable def estimateCasualtyRisk (totalPopulation damagePercent : ℝ) :
    CasualtyEstimate :=
  if damagePercent < 60 then
    { low := 0, medium := 0, high := 0,
      description := "Casualties unlikely at this damage level", warning := none }
  else
    let fatalityRate := ((damagePercent - 60) / 40) ^ 2 * 0.01
    let estimated : ℤ := round (totalPopulation * fatalityRate)
    { low := round ((estimated : ℝ) * 0.5), medium := estimated,
      high := round ((estimated : ℝ) * 2),
      description := "Estimated casualties (very rough approximation)",
      warning := some "This is a simplified model - actual casualties depend on many factors including time of day, building codes, and emergency response" }

/-! ## Felt radius (src/utils/attenuationModel.js, estimateFeltRadius) -/

/-- The bisection loop of `estimateFeltRadius`.  Fuel counts the remaining
iterations (the JS loop guard is
`maxDist - minDist > tolerance && iterations < maxIterations` with
tolerance 1 and maxIterations 50); the third component of the result is the
number of iterations performed. -/
noncomputable def feltRadiusLoop (magnitude depth targetIntensity : ℝ) :
    ℕ → ℝ → ℝ → ℝ × ℝ × ℕ
  | 0, minDist, maxDist => (minDist, maxDist, 0)
  | fuel + 1, minDist, maxDist =>
    if maxDist - minDist > 1 then
      let midDist := (minDist + maxDist) / 2
      let intensity := calculateIntensityCore magnitude depth midDist
      let rest :=
        if intensity > targetIntensity then
          feltRadiusLoop magnitude depth targetIntensity fuel midDist maxDist
        else
          feltRadiusLoop magnitude depth targetIntensity fuel minDist midDist
      (rest.1, rest.2.1, rest.2.2 + 1)
    else (minDist, maxDist, 0)

/-- Function `estimateFeltRadius(magnitude, depth, targetIntensity)`: bisection over
[0, 5000] km, at most 50 iterations, 1 km tolerance; returns the midpoint of
the final bracket. -/
noncomputable def estimateFeltRadius (magnitude depth : ℝ) (targetIntensity : ℝ := 3.0) : ℝ :=
  let result := feltRadiusLoop magnitude depth targetIntensity 50 0 5000
  (result.1 + result.2.1) / 2

/-! ## Helper lemmas -/

lemma round_mono {x y : ℝ} (h : x ≤ y) : round x ≤ round y := by
  rw [round_eq, round_eq]
  exact Int.floor_mono (by linarith)

lemma round_val {x : ℝ} {z : ℤ} (h1 : (z : ℝ) ≤ x + 1 / 2) (h2 : x + 1 / 2 < z + 1) :
    round x = z := by
  rw [round_eq]
  exact Int.floor_eq_iff.mpr ⟨h1, h2⟩

lemma exp_bound_below (c x : ℝ) (n : ℕ) (hc : c ≤ Real.exp x) (hc0 : 0 ≤ c) :
    c ^ n ≤ Real.exp ((n : ℝ) * x) := by
  rw [Real.exp_nat_mul]
  exact pow_le_pow_left₀ hc0 hc n

lemma exp_one_eight_lb : (5.15 : ℝ) ≤ Real.exp 1.8 := by
  have h : (1.2 : ℝ) ≤ Real.exp 0.2 := by
    have := Real.add_one_le_exp (0.2 : ℝ)
    linarith
  have h9 : (1.2 : ℝ) ^ 9 ≤ Real.exp ((9 : ℝ) * 0.2) := exp_bound_below _ _ 9 h (by norm_num)
  have : ((9 : ℝ) * 0.2) = 1.8 := by norm_num
  rw [this] at h9
  nlinarith [h9]

lemma exp_one_eight_ub : Real.exp 1.8 ≤ (7.39 : ℝ) := by
  have h1 : Real.exp 0.9 ≤ 2.7182818286 := by
    have hle : Real.exp 0.9 ≤ Real.exp 1 := Real.exp_le_exp.mpr (by norm_num)
    linarith [Real.exp_one_lt_d9]
  have h2 : Real.exp ((2 : ℝ) * 0.9) = Real.exp 0.9 ^ 2 := by
    rw [show ((2:ℝ) * 0.9) = ((2:ℕ) : ℝ) * 0.9 by norm_num, Real.exp_nat_mul]
  have h3 : ((2 : ℝ) * 0.9) = 1.8 := by norm_num
  rw [h3] at h2
  rw [h2]
  nlinarith [Real.exp_nonneg (0.9 : ℝ)]

lemma exp_one_five_lb : (3.8 : ℝ) ≤ Real.exp 1.5 := by
  have h : (1.25 : ℝ) ≤ Real.exp 0.25 := by
    have := Real.add_one_le_exp (0.25 : ℝ)
    linarith
  have h6 : (1.25 : ℝ) ^ 6 ≤ Real.exp ((6 : ℝ) * 0.25) := exp_bound_below _ _ 6 h (by norm_num)
  have : ((6 : ℝ) * 0.25) = 1.5 := by norm_num
  rw [this] at h6
  nlinarith [h6]

lemma exp_one_five_ub : Real.exp 1.5 ≤ (4.49 : ℝ) := by
  have hsq : Real.exp 1.5 ^ 2 = Real.exp 3 := by
    rw [show (3:ℝ) = ((2:ℕ) : ℝ) * 1.5 by norm_num, Real.exp_nat_mul]
  have hcube : Real.exp 3 = Real.exp 1 ^ 3 := by
    rw [show (3:ℝ) = ((3:ℕ) : ℝ) * 1 by norm_num, Real.exp_nat_mul]
  have h1 : Real.exp 1 ^ 3 ≤ 2.7182818286 ^ 3 :=
    pow_le_pow_left₀ (Real.exp_nonneg 1) (le_of_lt Real.exp_one_lt_d9) 3
  have h2 : Real.exp 1.5 ^ 2 ≤ 20.1601 := by
    rw [hsq, hcube]
    nlinarith [h1]
  nlinarith [Real.exp_nonneg (1.5 : ℝ), h2]

/-- Bounds on `estimateDamage 7.2 = 100 / (1 + e^(-1.8))`: it lies in
[83.5, 88.5] (the exact value is ≈ 85.8). -/
lemma estimateDamage_seven_two_bounds :
    83.5 ≤ estimateDamage 7.2 ∧ estimateDamage 7.2 ≤ 88.5 := by
  have harg : -DAMAGE_PARAMETERS.k * ((7.2 : ℝ) - DAMAGE_PARAMETERS.threshold) = -1.8 := by
    simp only [DAMAGE_PARAMETERS]
    norm_num
  have hexp : Real.exp (-(1.8:ℝ)) = (Real.exp 1.8)⁻¹ := Real.exp_neg 1.8
  have hE1 : (5.15 : ℝ) ≤ Real.exp 1.8 := exp_one_eight_lb
  have hE2 : Real.exp 1.8 ≤ (7.39 : ℝ) := exp_one_eight_ub
  have hEpos : (0:ℝ) < Real.exp 1.8 := Real.exp_pos _
  have hinv_ub : (Real.exp 1.8)⁻¹ ≤ (5.15:ℝ)⁻¹ := by
    apply inv_anti₀ (by norm_num) hE1
  have hinv_lb : (7.39:ℝ)⁻¹ ≤ (Real.exp 1.8)⁻¹ := by
    apply inv_anti₀ hEpos hE2
  have hApos : (0:ℝ) < 1 + (Real.exp 1.8)⁻¹ := by positivity
  have hD_lb : (83.5:ℝ) ≤ 100 / (1 + (Real.exp 1.8)⁻¹) := by
    rw [le_div_iff₀ hApos]
    nlinarith [hinv_ub]
  have hD_ub : 100 / (1 + (Real.exp 1.8)⁻¹) ≤ (88.5:ℝ) := by
    rw [div_le_iff₀ hApos]
    nlinarith [hinv_lb]
  unfold estimateDamage
  rw [if_neg (by norm_num : ¬ (7.2:ℝ) < 0)]
  dsimp only
  rw [harg, hexp]
  constructor
  · exact le_max_of_le_right (le_min (by norm_num) hD_lb)
  · exact max_le (by norm_num) (le_trans (min_le_right _ _) hD_ub)

/-- Bounds on `estimateDamage 5 = 100 / (1 + e^(1.5))`: it lies in
[16, 21] (the exact value is ≈ 18.2). -/
lemma estimateDamage_five_bounds :
    (16:ℝ) ≤ estimateDamage 5 ∧ estimateDamage 5 ≤ 21 := by
  have harg : -DAMAGE_PARAMETERS.k * ((5 : ℝ) - DAMAGE_PARAMETERS.threshold) = 1.5 := by
    simp only [DAMAGE_PARAMETERS]
    norm_num
  have hE1 : (3.8 : ℝ) ≤ Real.exp 1.5 := exp_one_five_lb
  have hE2 : Real.exp 1.5 ≤ (4.49 : ℝ) := exp_one_five_ub
  have hApos : (0:ℝ) < 1 + Real.exp 1.5 := by positivity
  have hD_lb : (16:ℝ) ≤ 100 / (1 + Real.exp 1.5) := by
    rw [le_div_iff₀ hApos]
    nlinarith
  have hD_ub : 100 / (1 + Real.exp 1.5) ≤ (21:ℝ) := by
    rw [div_le_iff₀ hApos]
    nlinarith
  unfold estimateDamage
  rw [if_neg (by norm_num : ¬ (5:ℝ) < 0)]
  dsimp only
  rw [harg]
  constructor
  · exact le_max_of_le_right (le_min (by norm_num) hD_lb)
  · exact max_le (by norm_num) (le_trans (min_le_right _ _) hD_ub)

lemma sqrt_113450_lb : (336.8:ℝ) < Real.sqrt 113450 :=
  (Real.lt_sqrt (by norm_num)).mpr (by norm_num)

lemma sqrt_113450_ub : Real.sqrt 113450 < (336.9:ℝ) :=
  (Real.sqrt_lt' (by norm_num)).mpr (by norm_num)

lemma logb10_sqrt_113450_lb : (7:ℝ)/3 < Real.logb 10 (Real.sqrt 113450) := by
  have hRpos : (0:ℝ) < Real.sqrt 113450 := Real.sqrt_pos.mpr (by norm_num)
  have hcube : (10:ℝ)^(7:ℕ) < (Real.sqrt 113450)^(3:ℕ) := by
    have h1 : (336.8:ℝ)^(3:ℕ) < (Real.sqrt 113450)^(3:ℕ) := by
      gcongr
      exact sqrt_113450_lb
    nlinarith [h1]
  have hlog := Real.logb_lt_logb (b := 10) (by norm_num)
    (show (0:ℝ) < (10:ℝ)^(7:ℕ) by positivity) hcube
  rw [Real.logb_pow, Real.logb_pow, Real.logb_self_eq_one (by norm_num)] at hlog
  push_cast at hlog
  linarith

lemma logb10_sqrt_113450_ub : Real.logb 10 (Real.sqrt 113450) < (13:ℝ)/5 := by
  have hRpos : (0:ℝ) < Real.sqrt 113450 := Real.sqrt_pos.mpr (by norm_num)
  have hpow : (Real.sqrt 113450)^(5:ℕ) < (10:ℝ)^(13:ℕ) := by
    have h1 : (Real.sqrt 113450)^(5:ℕ) < (336.9:ℝ)^(5:ℕ) := by
      gcongr
      exact sqrt_113450_ub
    nlinarith [h1]
  have hlog := Real.logb_lt_logb (b := 10) (by norm_num)
    (show (0:ℝ) < (Real.sqrt 113450)^(5:ℕ) by positivity) hpow
  rw [Real.logb_pow, Real.logb_pow, Real.logb_self_eq_one (by norm_num)] at hlog
  push_cast at hlog
  linarith

/-- Evaluation bounds for `calculateIntensityCore 8.8 35 335`: the value lies
in [2.5, 3.5) (the exact value is ≈ 2.82, far below the documented ≈ 7.2). -/
lemma calculateIntensityCore_maule_bounds :
    2.5 ≤ calculateIntensityCore 8.8 35 335 ∧ calculateIntensityCore 8.8 35 335 < 3.5 := by
  have harg : (335:ℝ) * 335 + 35 * 35 = 113450 := by norm_num
  have hlb := sqrt_113450_lb
  have hub := sqrt_113450_ub
  have hL1 := logb10_sqrt_113450_lb
  have hL2 := logb10_sqrt_113450_ub
  have hmax : max (Real.sqrt 113450) 1.0 = Real.sqrt 113450 :=
    max_eq_left (by linarith)
  unfold calculateIntensityCore
  rw [harg]
  dsimp only
  rw [hmax]
  simp only [ATTENUATION_CONSTANTS]
  constructor
  · rw [le_max_iff]
    left
    linarith
  · rw [max_lt_iff]
    exact ⟨by linarith, by norm_num⟩

/-- Closed form of `getMMI` on non-negative inputs: the table scan resolves
to a chain of interval tests on the cut points 1.5, 2.5, …, 11.5. -/
lemma getMMI_nonneg_eq (x : ℝ) (hx : 0 ≤ x) :
    getMMI x =
      if x < 1.5 then mmiI else if x < 2.5 then mmiII else if x < 3.5 then mmiIII
      else if x < 4.5 then mmiIV else if x < 5.5 then mmiV else if x < 6.5 then mmiVI
      else if x < 7.5 then mmiVII else if x < 8.5 then mmiVIII else if x < 9.5 then mmiIX
      else if x < 10.5 then mmiX else if x < 11.5 then mmiXI else mmiXII := by
  unfold getMMI MMI_SCALE
  rw [if_neg (not_lt.mpr hx)]
  by_cases h1 : x < 1.5
  · rw [List.find?_cons_of_pos _ (by
      simp only [decide_eq_true_eq, bandContains, mmiI, EReal.coe_lt_coe_iff]
      exact ⟨hx, h1⟩)]
    simp only [Option.getD_some, if_pos h1]
  rw [List.find?_cons_of_neg _ (by
    simp only [decide_eq_true_eq, bandContains, mmiI, EReal.coe_lt_coe_iff]
    exact fun h => h1 h.2), if_neg h1]
  by_cases h2 : x < 2.5
  · rw [List.find?_cons_of_pos _ (by
      simp only [decide_eq_true_eq, bandContains, mmiII, EReal.coe_lt_coe_iff]
      exact ⟨not_lt.mp h1, h2⟩)]
    simp only [Option.getD_some, if_pos h2]
  rw [List.find?_cons_of_neg _ (by
    simp only [decide_eq_true_eq, bandContains, mmiII, EReal.coe_lt_coe_iff]
    exact fun h => h2 h.2), if_neg h2]
  by_cases h3 : x < 3.5
  · rw [List.find?_cons_of_pos _ (by
      simp only [decide_eq_true_eq, bandContains, mmiIII, EReal.coe_lt_coe_iff]
      exact ⟨not_lt.mp h2, h3⟩)]
    simp only [Option.getD_some, if_pos h3]
  rw [List.find?_cons_of_neg _ (by
    simp only [decide_eq_true_eq, bandContains, mmiIII, EReal.coe_lt_coe_iff]
    exact fun h => h3 h.2), if_neg h3]
  by_cases h4 : x < 4.5
  · rw [List.find?_cons_of_pos _ (by
      simp only [decide_eq_true_eq, bandContains, mmiIV, EReal.coe_lt_coe_iff]
      exact ⟨not_lt.mp h3, h4⟩)]
    simp only [Option.getD_some, if_pos h4]
  rw [List.find?_cons_of_neg _ (by
    simp only [decide_eq_true_eq, bandContains, mmiIV, EReal.coe_lt_coe_iff]
    exact fun h => h4 h.2), if_neg h4]
  by_cases h5 : x < 5.5
  · rw [List.find?_cons_of_pos _ (by
      simp only [decide_eq_true_eq, bandContains, mmiV, EReal.coe_lt_coe_iff]
      exact ⟨not_lt.mp h4, h5⟩)]
    simp only [Option.getD_some, if_pos h5]
  rw [List.find?_cons_of_neg _ (by
    simp only [decide_eq_true_eq, bandContains, mmiV, EReal.coe_lt_coe_iff]
    exact fun h => h5 h.2), if_neg h5]
  by_cases h6 : x < 6.5
  · rw [List.find?_cons_of_pos _ (by
      simp only [decide_eq_true_eq, bandContains, mmiVI, EReal.coe_lt_coe_iff]
      exact ⟨not_lt.mp h5, h6⟩)]
    simp only [Option.getD_some, if_pos h6]
  rw [List.find?_cons_of_neg _ (by
    simp only [decide_eq_true_eq, bandContains, mmiVI, EReal.coe_lt_coe_iff]
    exact fun h => h6 h.2), if_neg h6]
  by_cases h7 : x < 7.5
  · rw [List.find?_cons_of_pos _ (by
      simp only [decide_eq_true_eq, bandContains, mmiVII, EReal.coe_lt_coe_iff]
      exact ⟨not_lt.mp h6, h7⟩)]
    simp only [Option.getD_some, if_pos h7]
  rw [List.find?_cons_of_neg _ (by
    simp only [decide_eq_true_eq, bandContains, mmiVII, EReal.coe_lt_coe_iff]
    exact fun h => h7 h.2), if_neg h7]
  by_cases h8 : x < 8.5
  · rw [List.find?_cons_of_pos _ (by
      simp only [decide_eq_true_eq, bandContains, mmiVIII, EReal.coe_lt_coe_iff]
      exact ⟨not_lt.mp h7, h8⟩)]
    simp only [Option.getD_some, if_pos h8]
  rw [List.find?_cons_of_neg _ (by
    simp only [decide_eq_true_eq, bandContains, mmiVIII, EReal.coe_lt_coe_iff]
    exact fun h => h8 h.2), if_neg h8]
  by_cases h9 : x < 9.5
  · rw [List.find?_cons_of_pos _ (by
      simp only [decide_eq_true_eq, bandContains, mmiIX, EReal.coe_lt_coe_iff]
      exact ⟨not_lt.mp h8, h9⟩)]
    simp only [Option.getD_some, if_pos h9]
  rw [List.find?_cons_of_neg _ (by
    simp only [decide_eq_true_eq, bandContains, mmiIX, EReal.coe_lt_coe_iff]
    exact fun h => h9 h.2), if_neg h9]
  by_cases h10 : x < 10.5
  · rw [List.find?_cons_of_pos _ (by
      simp only [decide_eq_true_eq, bandContains, mmiX, EReal.coe_lt_coe_iff]
      exact ⟨not_lt.mp h9, h10⟩)]
    simp only [Option.getD_some, if_pos h10]
  rw [List.find?_cons_of_neg _ (by
    simp only [decide_eq_true_eq, bandContains, mmiX, EReal.coe_lt_coe_iff]
    exact fun h => h10 h.2), if_neg h10]
  by_cases h11 : x < 11.5
  · rw [List.find?_cons_of_pos _ (by
      simp only [decide_eq_true_eq, bandContains, mmiXI, EReal.coe_lt_coe_iff]
      exact ⟨not_lt.mp h10, h11⟩)]
    simp only [Option.getD_some, if_pos h11]
  rw [List.find?_cons_of_neg _ (by
    simp only [decide_eq_true_eq, bandContains, mmiXI, EReal.coe_lt_coe_iff]
    exact fun h => h11 h.2), if_neg h11]
  rw [List.find?_cons_of_pos _ (by
    simp only [decide_eq_true_eq, bandContains, mmiXII]
    exact ⟨not_lt.mp h11, EReal.coe_lt_top x⟩)]
  simp only [Option.getD_some]

lemma mmiI_mem : mmiI ∈ MMI_SCALE := List.Mem.head _

lemma mmiII_mem : mmiII ∈ MMI_SCALE := by
  unfold MMI_SCALE
  exact List.Mem.tail _ (List.Mem.head _)

lemma mmiIII_mem : mmiIII ∈ MMI_SCALE := by
  unfold MMI_SCALE
  exact List.Mem.tail _ (List.Mem.tail _ (List.Mem.head _))

lemma mmiIV_mem : mmiIV ∈ MMI_SCALE := by
  unfold MMI_SCALE
  exact List.Mem.tail _ (List.Mem.tail _ (List.Mem.tail _ (List.Mem.head _)))

lemma mmiV_mem : mmiV ∈ MMI_SCALE := by
  unfold MMI_SCALE
  exact List.Mem.tail _ (List.Mem.tail _ (List.Mem.tail _ (List.Mem.tail _ (List.Mem.head _))))

lemma mmiVI_mem : mmiVI ∈ MMI_SCALE := by
  unfold MMI_SCALE
  exact List.Mem.tail _ (List.Mem.tail _ (List.Mem.tail _ (List.Mem.tail _
    (List.Mem.tail _ (List.Mem.head _)))))

lemma mmiVII_mem : mmiVII ∈ MMI_SCALE := by
  unfold MMI_SCALE
  exact List.Mem.tail _ (List.Mem.tail _ (List.Mem.tail _ (List.Mem.tail _
    (List.Mem.tail _ (List.Mem.tail _ (List.Mem.head _))))))

lemma mmiVIII_mem : mmiVIII ∈ MMI_SCALE := by
  unfold MMI_SCALE
  exact List.Mem.tail _ (List.Mem.tail _ (List.Mem.tail _ (List.Mem.tail _
    (List.Mem.tail _ (List.Mem.tail _ (List.Mem.tail _ (List.Mem.head _)))))))

lemma mmiIX_mem : mmiIX ∈ MMI_SCALE := by
  unfold MMI_SCALE
  exact List.Mem.tail _ (List.Mem.tail _ (List.Mem.tail _ (List.Mem.tail _
    (List.Mem.tail _ (List.Mem.tail _ (List.Mem.tail _ (List.Mem.tail _ (List.Mem.head _))))))))

lemma mmiX_mem : mmiX ∈ MMI_SCALE := by
  unfold MMI_SCALE
  exact List.Mem.tail _ (List.Mem.tail _ (List.Mem.tail _ (List.Mem.tail _
    (List.Mem.tail _ (List.Mem.tail _ (List.Mem.tail _ (List.Mem.tail _
      (List.Mem.tail _ (List.Mem.head _)))))))))

lemma mmiXI_mem : mmiXI ∈ MMI_SCALE := by
  unfold MMI_SCALE
  exact List.Mem.tail _ (List.Mem.tail _ (List.Mem.tail _ (List.Mem.tail _
    (List.Mem.tail _ (List.Mem.tail _ (List.Mem.tail _ (List.Mem.tail _
      (List.Mem.tail _ (List.Mem.tail _ (List.Mem.head _))))))))))

lemma mmiXII_mem : mmiXII ∈ MMI_SCALE := by
  unfold MMI_SCALE
  exact List.Mem.tail _ (List.Mem.tail _ (List.Mem.tail _ (List.Mem.tail _
    (List.Mem.tail _ (List.Mem.tail _ (List.Mem.tail _ (List.Mem.tail _
      (List.Mem.tail _ (List.Mem.tail _ (List.Mem.tail _ (List.Mem.head _)))))))))))

set_option maxHeartbeats 6000000 in
/-- Classification correctness: for non-negative `x`, `getMMI x` returns any
band of the table whose half-open interval contains `x`. -/
lemma getMMI_of_bandContains (x : ℝ) (hx : 0 ≤ x) (e : MMIEntry)
    (he : e ∈ MMI_SCALE) (hc : bandContains e x) : getMMI x = e := by
  rw [getMMI_nonneg_eq x hx]
  simp only [MMI_SCALE, List.mem_cons, List.not_mem_nil, or_false] at he
  rcases he with rfl | rfl | rfl | rfl | rfl | rfl | rfl | rfl | rfl | rfl | rfl | rfl <;>
    obtain ⟨hlo, hhi⟩ := hc <;>
    simp only [mmiI, mmiII, mmiIII, mmiIV, mmiV, mmiVI, mmiVII, mmiVIII, mmiIX, mmiX,
      mmiXI, mmiXII, EReal.coe_lt_coe_iff] at hlo hhi <;>
    split_ifs <;> first | (exfalso; linarith) | rfl

set_option maxHeartbeats 2000000 in
/-- Every non-negative intensity is contained in the band `getMMI` returns,
and that band is in the table. -/
lemma getMMI_mem_and_contains (x : ℝ) (hx : 0 ≤ x) :
    getMMI x ∈ MMI_SCALE ∧ bandContains (getMMI x) x := by
  rw [getMMI_nonneg_eq x hx]
  split_ifs with h1 h2 h3 h4 h5 h6 h7 h8 h9 h10 h11
  · exact ⟨mmiI_mem, by
      simp only [bandContains, mmiI, EReal.coe_lt_coe_iff]
      exact ⟨hx, h1⟩⟩
  · exact ⟨mmiII_mem, by
      simp only [bandContains, mmiII, EReal.coe_lt_coe_iff]
      exact ⟨by linarith, h2⟩⟩
  · exact ⟨mmiIII_mem, by
      simp only [bandContains, mmiIII, EReal.coe_lt_coe_iff]
      exact ⟨by linarith, h3⟩⟩
  · exact ⟨mmiIV_mem, by
      simp only [bandContains, mmiIV, EReal.coe_lt_coe_iff]
      exact ⟨by linarith, h4⟩⟩
  · exact ⟨mmiV_mem, by
      simp only [bandContains, mmiV, EReal.coe_lt_coe_iff]
      exact ⟨by linarith, h5⟩⟩
  · exact ⟨mmiVI_mem, by
      simp only [bandContains, mmiVI, EReal.coe_lt_coe_iff]
      exact ⟨by linarith, h6⟩⟩
  · exact ⟨mmiVII_mem, by
      simp only [bandContains, mmiVII, EReal.coe_lt_coe_iff]
      exact ⟨by linarith, h7⟩⟩
  · exact ⟨mmiVIII_mem, by
      simp only [bandContains, mmiVIII, EReal.coe_lt_coe_iff]
      exact ⟨by linarith, h8⟩⟩
  · exact ⟨mmiIX_mem, by
      simp only [bandContains, mmiIX, EReal.coe_lt_coe_iff]
      exact ⟨by linarith, h9⟩⟩
  · exact ⟨mmiX_mem, by
      simp only [bandContains, mmiX, EReal.coe_lt_coe_iff]
      exact ⟨by linarith, h10⟩⟩
  · exact ⟨mmiXI_mem, by
      simp only [bandContains, mmiXI, EReal.coe_lt_coe_iff]
      exact ⟨by linarith, h11⟩⟩
  · exact ⟨mmiXII_mem, by
      simp only [bandContains, mmiXII]
      exact ⟨by linarith, EReal.coe_lt_top x⟩⟩

/-! ## Claim theorems -/

/-- C10: `getDamageCategory` is total over all inputs: every input not below 70
— including damage percentages above 100, and NaN in the NaN-aware variant —
falls through to the final `else` branch and is classified "Very Heavy" with
severity 5. -/
theorem getDamageCategory_top_band_total (x : ℝ) (hx : ¬ x < 70) :
    getDamageCategory x = veryHeavyCategory ∧
    jsGetDamageCategory (some x) = veryHeavyCategory ∧
    jsGetDamageCategory none = veryHeavyCategory ∧
    veryHeavyCategory.severity = 5 ∧ veryHeavyCategory.category = "Very Heavy" := by
  refine ⟨?_, ?_, ?_, rfl, rfl⟩
  · unfold getDamageCategory
    have h70 : (70:ℝ) ≤ x := not_lt.mp hx
    rw [if_neg (by linarith), if_neg (by linarith), if_neg (by linarith),
      if_neg (by linarith), if_neg (by linarith)]
  · unfold jsGetDamageCategory
    have h70 : (70:ℝ) ≤ x := not_lt.mp hx
    rw [if_neg (show ¬ jsIsLt (some x) 5 by simp [jsIsLt]; linarith),
      if_neg (show ¬ jsIsLt (some x) 15 by simp [jsIsLt]; linarith),
      if_neg (show ¬ jsIsLt (some x) 30 by simp [jsIsLt]; linarith),
      if_neg (show ¬ jsIsLt (some x) 50 by simp [jsIsLt]; linarith),
      if_neg (show ¬ jsIsLt (some x) 70 by simp [jsIsLt]; linarith)]
  · unfold jsGetDamageCategory
    rw [if_neg (show ¬ jsIsLt none 5 from fun h => h),
      if_neg (show ¬ jsIsLt none 15 from fun h => h),
      if_neg (show ¬ jsIsLt none 30 from fun h => h),
      if_neg (show ¬ jsIsLt none 50 from fun h => h),
      if_neg (show ¬ jsIsLt none 70 from fun h => h)]

/-- Witness for C10 at the concrete out-of-documented-range input 150. -/
theorem getDamageCategory_top_band_total_witness :
    getDamageCategory 150 = veryHeavyCategory ∧
    jsGetDamageCategory (some 150) = veryHeavyCategory ∧
    jsGetDamageCategory none = veryHeavyCategory ∧
    veryHeavyCategory.severity = 5 ∧ veryHeavyCategory.category = "Very Heavy" :=
  getDamageCategory_top_band_total 150 (by norm_num)

/-- C5: `estimateDamage` is monotone non-decreasing, always lies in [0,100],
and `estimateDamage(-5) = 0`. -/
theorem estimateDamage_monotone_bounded (x y : ℝ) (hxy : x ≤ y) :
    estimateDamage x ≤ estimateDamage y ∧
    0 ≤ estimateDamage x ∧ estimateDamage x ≤ 100 ∧
    estimateDamage (-5) = 0 := by
  have hbounds : ∀ t : ℝ, 0 ≤ estimateDamage t ∧ estimateDamage t ≤ 100 := by
    intro t
    unfold estimateDamage
    split_ifs
    · exact ⟨le_refl 0, by norm_num⟩
    · exact ⟨le_max_left 0 _, max_le (by norm_num) (min_le_left 100 _)⟩
  have hmono : estimateDamage x ≤ estimateDamage y := by
    unfold estimateDamage
    split_ifs with hx hy hy
    · exact le_refl 0
    · exact le_max_left 0 _
    · exact absurd (lt_of_le_of_lt hxy hy) hx
    · have hexp : Real.exp (-DAMAGE_PARAMETERS.k * (y - DAMAGE_PARAMETERS.threshold)) ≤
          Real.exp (-DAMAGE_PARAMETERS.k * (x - DAMAGE_PARAMETERS.threshold)) := by
        apply Real.exp_le_exp.mpr
        simp only [DAMAGE_PARAMETERS]
        nlinarith
      have hpx : (0:ℝ) < 1 + Real.exp (-DAMAGE_PARAMETERS.k * (x - DAMAGE_PARAMETERS.threshold)) :=
        by positivity
      have hpy : (0:ℝ) < 1 + Real.exp (-DAMAGE_PARAMETERS.k * (y - DAMAGE_PARAMETERS.threshold)) :=
        by positivity
      have hdiv : 100 / (1 + Real.exp (-DAMAGE_PARAMETERS.k * (x - DAMAGE_PARAMETERS.threshold))) ≤
          100 / (1 + Real.exp (-DAMAGE_PARAMETERS.k * (y - DAMAGE_PARAMETERS.threshold))) := by
        apply div_le_div_of_nonneg_left (by norm_num) hpy
        linarith
      exact max_le_max le_rfl (min_le_min le_rfl hdiv)
  exact ⟨hmono, (hbounds x).1, (hbounds x).2, by unfold estimateDamage; rw [if_pos (by norm_num)]⟩

/-- Witness for C5 at the concrete pair (3, 5). -/
theorem estimateDamage_monotone_bounded_witness :
    estimateDamage 3 ≤ estimateDamage 5 ∧
    0 ≤ estimateDamage 3 ∧ estimateDamage 3 ≤ 100 ∧
    estimateDamage (-5) = 0 :=
  estimateDamage_monotone_bounded 3 5 (by norm_num)

/-- C7 counterexample: at `totalPopulation = 100`, `damagePercent = 160`
(negative inputs are rejected but percentages above 100 are not), the
displacement factor is 2, so `displaced = 200 > affected = 100`: the claimed
invariant `displaced ≤ affected` fails as stated for arbitrary damagePercent. -/
theorem estimateAffectedPopulation_claim_false :
    ¬ ((estimateAffectedPopulation 100 160).displaced ≤
        (estimateAffectedPopulation 100 160).affected) := by
  have hguard : ¬ ((100:ℝ) < 0 ∨ (160:ℝ) < 0) := by norm_num
  have hap : min ((160:ℝ) * 1.2) 100 = 100 := by norm_num
  unfold estimateAffectedPopulation
  rw [if_neg hguard]
  simp only [hap]
  have haff : round ((100:ℝ) * 100 / 100) = (100:ℤ) := round_val (by norm_num) (by norm_num)
  have hfac : max (0:ℝ) (((160:ℝ) - 40) / 60) = 2 := by norm_num
  simp only [haff, hfac]
  have hdisp : round (((100:ℤ):ℝ) * 2) = (200:ℤ) := round_val (by norm_num) (by norm_num)
  simp only [hdisp]
  norm_num

/-- C7 amended: the invariants hold once `totalPopulation` is an integer and
`damagePercent ≤ 100` (the documented range of a damage percentage):
`displaced ≤ affected ≤ total`; `displaced = 0` whenever `damagePercent ≤ 40`;
negative inputs give the all-zero record. -/
theorem estimateAffectedPopulation_invariants (p d : ℝ) (n : ℤ) (hp : p = (n : ℝ))
    (hd : d ≤ 100) :
    ((estimateAffectedPopulation p d).displaced ≤ (estimateAffectedPopulation p d).affected ∧
      ((estimateAffectedPopulation p d).affected : ℝ) ≤ (estimateAffectedPopulation p d).total) ∧
    (∀ q e : ℝ, e ≤ 40 → (estimateAffectedPopulation q e).displaced = 0) ∧
    (∀ q e : ℝ, q < 0 ∨ e < 0 →
      estimateAffectedPopulation q e = ⟨0, 0, 0, 0⟩) := by
  refine ⟨?_, ?_, ?_⟩
  · subst hp
    unfold estimateAffectedPopulation
    split_ifs with hguard
    · simp
    · push_neg at hguard
      obtain ⟨hn0, hd0⟩ := hguard
      dsimp only
      have hap0 : (0:ℝ) ≤ min (d * 1.2) 100 := le_min (by linarith) (by norm_num)
      have hap100 : min (d * 1.2) 100 ≤ 100 := min_le_right _ _
      have haff0 : (0:ℤ) ≤ round ((n:ℝ) * min (d * 1.2) 100 / 100) := by
        have : round (0:ℝ) ≤ round ((n:ℝ) * min (d * 1.2) 100 / 100) :=
          round_mono (by positivity)
        simpa using this
      have haffn : round ((n:ℝ) * min (d * 1.2) 100 / 100) ≤ n := by
        have harg : (n:ℝ) * min (d * 1.2) 100 / 100 ≤ (n:ℝ) := by
          rw [div_le_iff₀ (by norm_num : (0:ℝ) < 100)]
          nlinarith
        have : round ((n:ℝ) * min (d * 1.2) 100 / 100) ≤ round ((n:ℝ)) := round_mono harg
        simpa using this
      constructor
      · -- displaced ≤ affected
        have hfac0 : (0:ℝ) ≤ max 0 ((d - 40) / 60) := le_max_left 0 _
        have hfac1 : max (0:ℝ) ((d - 40) / 60) ≤ 1 := max_le (by norm_num) (by linarith)
        have harg : ((round ((n:ℝ) * min (d * 1.2) 100 / 100) : ℤ) : ℝ) * max 0 ((d - 40) / 60) ≤
            ((round ((n:ℝ) * min (d * 1.2) 100 / 100) : ℤ) : ℝ) := by
          have h0 : (0:ℝ) ≤ ((round ((n:ℝ) * min (d * 1.2) 100 / 100) : ℤ) : ℝ) := by
            exact_mod_cast haff0
          nlinarith
        have := round_mono harg
        simpa using this
      · -- affected ≤ total
        exact_mod_cast haffn
  · intro q e he
    unfold estimateAffectedPopulation
    split_ifs with hguard
    · rfl
    · push_neg at hguard
      have hfac : max (0:ℝ) ((e - 40) / 60) = 0 := max_eq_left (by linarith)
      simp [hfac]
  · intro q e hqe
    unfold estimateAffectedPopulation
    rw [if_pos hqe]

/-- Witness for C7 (amended) at totalPopulation 1000, damagePercent 50. -/
theorem estimateAffectedPopulation_invariants_witness :
    ((estimateAffectedPopulation 1000 50).displaced ≤ (estimateAffectedPopulation 1000 50).affected ∧
      ((estimateAffectedPopulation 1000 50).affected : ℝ) ≤ (estimateAffectedPopulation 1000 50).total) ∧
    (∀ q e : ℝ, e ≤ 40 → (estimateAffectedPopulation q e).displaced = 0) ∧
    (∀ q e : ℝ, q < 0 ∨ e < 0 →
      estimateAffectedPopulation q e = ⟨0, 0, 0, 0⟩) :=
  estimateAffectedPopulation_invariants 1000 50 1000 (by norm_num) (by norm_num)

/-- C8 counterexample: with a negative population (−300) and damagePercent 100
the medium estimate rounds to −3, and `low = round(−3·0.5) = −1 > −3 = medium`:
the claimed ordering `low ≤ medium` fails as stated for arbitrary inputs. -/
theorem estimateCasualtyRisk_claim_false :
    ¬ ((estimateCasualtyRisk (-300) 100).low ≤ (estimateCasualtyRisk (-300) 100).medium) := by
  unfold estimateCasualtyRisk
  rw [if_neg (by norm_num : ¬ (100:ℝ) < 60)]
  have hrate : (((100:ℝ) - 60) / 40) ^ 2 * 0.01 = 0.01 := by norm_num
  simp only [hrate]
  have hest : round ((-300:ℝ) * 0.01) = (-3:ℤ) := round_val (by norm_num) (by norm_num)
  simp only [hest]
  have hlow : round (((-3:ℤ):ℝ) * 0.5) = (-1:ℤ) := round_val (by norm_num) (by norm_num)
  simp only [hlow]
  norm_num

/-- C8 amended: all-zero below 60% damage holds unconditionally; the ordering
`low ≤ medium ≤ high` holds whenever `totalPopulation ≥ 0`. -/
theorem estimateCasualtyRisk_invariants (p d : ℝ) (hp : 0 ≤ p) :
    ((estimateCasualtyRisk p d).low ≤ (estimateCasualtyRisk p d).medium ∧
      (estimateCasualtyRisk p d).medium ≤ (estimateCasualtyRisk p d).high) ∧
    (∀ q e : ℝ, e < 60 → (estimateCasualtyRisk q e).low = 0 ∧
      (estimateCasualtyRisk q e).medium = 0 ∧ (estimateCasualtyRisk q e).high = 0) := by
  constructor
  · unfold estimateCasualtyRisk
    split_ifs with hd
    · exact ⟨le_refl 0, le_refl 0⟩
    · have hrate : (0:ℝ) ≤ ((d - 60) / 40) ^ 2 * 0.01 := by positivity
      have hest0 : (0:ℤ) ≤ round (p * (((d - 60) / 40) ^ 2 * 0.01)) := by
        have : round (0:ℝ) ≤ round (p * (((d - 60) / 40) ^ 2 * 0.01)) :=
          round_mono (by positivity)
        simpa using this
      have hestR : (0:ℝ) ≤ ((round (p * (((d - 60) / 40) ^ 2 * 0.01)) : ℤ) : ℝ) := by
        exact_mod_cast hest0
      constructor
      · have := round_mono (show ((round (p * (((d - 60) / 40) ^ 2 * 0.01)) : ℤ) : ℝ) * 0.5 ≤
            ((round (p * (((d - 60) / 40) ^ 2 * 0.01)) : ℤ) : ℝ) by nlinarith)
        simpa using this
      · have := round_mono (show ((round (p * (((d - 60) / 40) ^ 2 * 0.01)) : ℤ) : ℝ) ≤
            ((round (p * (((d - 60) / 40) ^ 2 * 0.01)) : ℤ) : ℝ) * 2 by nlinarith)
        simpa using this
  · intro q e he
    unfold estimateCasualtyRisk
    rw [if_pos he]
    exact ⟨rfl, rfl, rfl⟩

/-- Witness for C8 (amended) at totalPopulation 1000, damagePercent 80. -/
theorem estimateCasualtyRisk_invariants_witness :
    ((estimateCasualtyRisk 1000 80).low ≤ (estimateCasualtyRisk 1000 80).medium ∧
      (estimateCasualtyRisk 1000 80).medium ≤ (estimateCasualtyRisk 1000 80).high) ∧
    (∀ q e : ℝ, e < 60 → (estimateCasualtyRisk q e).low = 0 ∧
      (estimateCasualtyRisk q e).medium = 0 ∧ (estimateCasualtyRisk q e).high = 0) :=
  estimateCasualtyRisk_invariants 1000 80 (by norm_num)

lemma jsIsLt_iff (x : Option ℝ) (c : ℝ) : jsIsLt x c ↔ ∃ v, x = some v ∧ v < c := by
  cases x <;> simp [jsIsLt]

lemma jsIsGt_iff (x : Option ℝ) (c : ℝ) : jsIsGt x c ↔ ∃ v, x = some v ∧ c < v := by
  cases x <;> simp [jsIsGt]

/-- C2 counterexample: `estimateDamage 7.2` is not within 3 of 76 — the
logistic curve with k = 1.5, threshold = 6 gives `100/(1+e^(-1.8)) ≈ 85.8`,
contradicting the documented "≈ 76". -/
theorem estimateDamage_calibration_claim_false :
    ¬ |estimateDamage 7.2 - 76| ≤ 3 := by
  obtain ⟨hlb, _⟩ := estimateDamage_seven_two_bounds
  intro h
  rw [abs_le] at h
  linarith [h.2]

/-- C2 amended: `estimateDamage 7.2` is within 3 of 86 (not 76), and
`estimateDamage 5` is within 3 of 18, under the logistic curve
`100 / (1 + e^(-k(I - threshold)))` with k = 1.5, threshold = 6. -/
theorem estimateDamage_calibration_amended :
    |estimateDamage 7.2 - 86| ≤ 3 ∧ |estimateDamage 5 - 18| ≤ 3 := by
  obtain ⟨h1, h2⟩ := estimateDamage_seven_two_bounds
  obtain ⟨h3, h4⟩ := estimateDamage_five_bounds
  constructor <;> rw [abs_le] <;> constructor <;> linarith

/-- C1: evaluation of the calibration scenario.  `calculateIntensity
(8.8, 35, 335)` succeeds but returns a value in [2.5, 3.5) — about 2.82, not
within 0.5 of the documented 7.2 — and `getMMI` classifies it as MMI III
(numeric level 3), not VII or VIII.  This contradicts the source's own doc
comment and `validateModel` reference data. -/
theorem calculateIntensity_maule_eval :
    ∃ v : ℝ, calculateIntensity 8.8 35 335 = .ok v ∧
      2.5 ≤ v ∧ v < 3.5 ∧ ¬ |v - 7.2| ≤ 0.5 ∧
      getMMI v = mmiIII ∧ (getMMI v).numericLevel = 3 ∧
      mmiVII.numericLevel = 7 ∧ mmiVIII.numericLevel = 8 := by
  obtain ⟨hlb, hub⟩ := calculateIntensityCore_maule_bounds
  refine ⟨calculateIntensityCore 8.8 35 335, ?_, hlb, hub, ?_, ?_, ?_, rfl, rfl⟩
  · unfold calculateIntensity
    rw [if_neg (by norm_num), if_neg (by norm_num), if_neg (by norm_num)]
  · intro h
    rw [abs_le] at h
    linarith [h.1]
  · exact getMMI_of_bandContains _ (by linarith) _ mmiIII_mem
      (by
        simp only [bandContains, mmiIII, EReal.coe_lt_coe_iff]
        exact ⟨hlb, hub⟩)
  · rw [getMMI_of_bandContains _ (by linarith) _ mmiIII_mem
      (by
        simp only [bandContains, mmiIII, EReal.coe_lt_coe_iff]
        exact ⟨hlb, hub⟩)]
    rfl

/-- C4: on valid inputs (magnitude in [0,10], depth in [0,700], distance ≥ 0)
`calculateIntensity` succeeds with the core formula value, which is
non-negative and non-decreasing in magnitude; additionally, wherever the
hypocentral distance exceeds 1 km, it is non-increasing in distance (that
condition scopes only the distance-monotonicity conjunct). -/
theorem calculateIntensity_shape
    (m m' d r r' : ℝ) (hm0 : 0 ≤ m) (hm10 : m ≤ 10) (hd0 : 0 ≤ d) (hd700 : d ≤ 700)
    (hr0 : 0 ≤ r) (hmm' : m ≤ m') (hm'10 : m' ≤ 10) (hrr' : r ≤ r') :
    calculateIntensity m d r = .ok (calculateIntensityCore m d r) ∧
    0 ≤ calculateIntensityCore m d r ∧
    calculateIntensityCore m d r ≤ calculateIntensityCore m' d r ∧
    (1 < Real.sqrt (r * r + d * d) →
      calculateIntensityCore m d r' ≤ calculateIntensityCore m d r) := by
  refine ⟨?_, ?_, ?_, ?_⟩
  · unfold calculateIntensity
    rw [if_neg (by push_neg; exact ⟨hm0, hm10⟩), if_neg (by push_neg; exact ⟨hd0, hd700⟩),
      if_neg (not_lt.mpr hr0)]
  · unfold calculateIntensityCore
    exact le_max_right _ 0
  · unfold calculateIntensityCore
    dsimp only
    apply max_le_max ?_ le_rfl
    simp only [ATTENUATION_CONSTANTS]
    linarith
  · intro hR1
    have hs : Real.sqrt (r * r + d * d) ≤ Real.sqrt (r' * r' + d * d) :=
      Real.sqrt_le_sqrt (by nlinarith)
    have hmaxr : max (Real.sqrt (r * r + d * d)) 1.0 = Real.sqrt (r * r + d * d) :=
      max_eq_left (le_trans (by norm_num : (1.0:ℝ) ≤ 1) hR1.le)
    have hmaxr' : max (Real.sqrt (r' * r' + d * d)) 1.0 = Real.sqrt (r' * r' + d * d) :=
      max_eq_left (le_trans (by norm_num : (1.0:ℝ) ≤ 1) (le_trans hR1.le hs))
    unfold calculateIntensityCore
    dsimp only
    apply max_le_max ?_ le_rfl
    rw [hmaxr, hmaxr']
    have hL : Real.logb 10 (Real.sqrt (r * r + d * d)) ≤
        Real.logb 10 (Real.sqrt (r' * r' + d * d)) :=
      Real.logb_le_logb_of_le (by norm_num) (by linarith) hs
    simp only [ATTENUATION_CONSTANTS]
    linarith

/-- Witness for C4 at magnitudes 7 ≤ 8, depth 35, distances 100 ≤ 200
(hypocentral distance √(100²+35²) > 1, so the distance conjunct applies). -/
theorem calculateIntensity_shape_witness :
    calculateIntensity 7 35 100 = .ok (calculateIntensityCore 7 35 100) ∧
    0 ≤ calculateIntensityCore 7 35 100 ∧
    calculateIntensityCore 7 35 100 ≤ calculateIntensityCore 8 35 100 ∧
    calculateIntensityCore 7 35 200 ≤ calculateIntensityCore 7 35 100 :=
  have h := calculateIntensity_shape 7 8 35 100 200 (by norm_num) (by norm_num)
    (by norm_num) (by norm_num) (by norm_num) (by norm_num) (by norm_num) (by norm_num)
  ⟨h.1, h.2.1, h.2.2.1, h.2.2.2 ((Real.lt_sqrt (by norm_num)).mpr (by norm_num))⟩

/-- C3: `jsCalculateIntensity` reports a validation error exactly when a
real-valued (non-NaN) magnitude is outside [0,10], a real-valued depth is
outside [0,700], or a real-valued distance is negative; a NaN operand makes
every comparison false, so NaN inputs pass validation and return normally
(here: all-NaN inputs produce `.ok none`). -/
theorem jsCalculateIntensity_error_iff (m d r : Option ℝ) :
    ((∃ e, jsCalculateIntensity m d r = .error e) ↔
      ((∃ x, m = some x ∧ (x < 0 ∨ 10 < x)) ∨
       (∃ x, d = some x ∧ (x < 0 ∨ 700 < x)) ∨
       (∃ x, r = some x ∧ x < 0))) ∧
    jsCalculateIntensity none none none = .ok none := by
  constructor
  · unfold jsCalculateIntensity
    split_ifs with h1 h2 h3
    · simp only [jsIsLt_iff, jsIsGt_iff] at h1
      constructor
      · intro _
        rcases h1 with ⟨v, hv, hlt⟩ | ⟨v, hv, hgt⟩
        exacts [Or.inl ⟨v, hv, Or.inl hlt⟩, Or.inl ⟨v, hv, Or.inr hgt⟩]
      · intro _
        exact ⟨_, rfl⟩
    · simp only [jsIsLt_iff, jsIsGt_iff] at h2
      constructor
      · intro _
        rcases h2 with ⟨v, hv, hlt⟩ | ⟨v, hv, hgt⟩
        exacts [Or.inr (Or.inl ⟨v, hv, Or.inl hlt⟩), Or.inr (Or.inl ⟨v, hv, Or.inr hgt⟩)]
      · intro _
        exact ⟨_, rfl⟩
    · simp only [jsIsLt_iff] at h3
      constructor
      · intro _
        obtain ⟨v, hv, hlt⟩ := h3
        exact Or.inr (Or.inr ⟨v, hv, hlt⟩)
      · intro _
        exact ⟨_, rfl⟩
    · constructor
      · intro ⟨e, he⟩
        exfalso
        rcases m with _ | x <;> rcases d with _ | y <;> rcases r with _ | z <;>
          simp at he
      · intro hrhs
        exfalso
        rw [not_or] at *
        rcases hrhs with ⟨x, rfl, hx⟩ | ⟨x, rfl, hx⟩ | ⟨x, rfl, hx⟩
        · rcases hx with hx | hx
          · exact h1.1 hx
          · exact h1.2 hx
        · rcases hx with hx | hx
          · exact h2.1 hx
          · exact h2.2 hx
        · exact h3 hx
  · rfl

/-- C6: for every non-negative intensity exactly one band of the twelve-entry
table contains it (half-open intervals, open-ended top band), `getMMI` returns
that band, an intensity exactly at a band's `minIntensity` is classified into
that band, and negative or NaN intensities are classified as MMI I. -/
theorem getMMI_partition (x : ℝ) (hx : 0 ≤ x) :
    (∃! e, e ∈ MMI_SCALE ∧ bandContains e x) ∧
    (∀ e, e ∈ MMI_SCALE → bandContains e x → getMMI x = e) ∧
    (∀ e, e ∈ MMI_SCALE → getMMI e.minIntensity = e) ∧
    (∀ y : ℝ, y < 0 → getMMI y = mmiI) ∧
    jsGetMMI none = mmiI := by
  refine ⟨?_, fun e he hc => getMMI_of_bandContains x hx e he hc, ?_, ?_, rfl⟩
  · obtain ⟨hmem, hcont⟩ := getMMI_mem_and_contains x hx
    exact ⟨getMMI x, ⟨hmem, hcont⟩,
      fun y hy => (getMMI_of_bandContains x hx y hy.1 hy.2).symm⟩
  · intro e he
    simp only [MMI_SCALE, List.mem_cons, List.not_mem_nil, or_false] at he
    rcases he with rfl | rfl | rfl | rfl | rfl | rfl | rfl | rfl | rfl | rfl | rfl | rfl
    · exact getMMI_of_bandContains _ (by norm_num [mmiI]) _ mmiI_mem
        (by simp only [bandContains, mmiI, EReal.coe_lt_coe_iff]; norm_num)
    · exact getMMI_of_bandContains _ (by norm_num [mmiII]) _ mmiII_mem
        (by simp only [bandContains, mmiII, EReal.coe_lt_coe_iff]; norm_num)
    · exact getMMI_of_bandContains _ (by norm_num [mmiIII]) _ mmiIII_mem
        (by simp only [bandContains, mmiIII, EReal.coe_lt_coe_iff]; norm_num)
    · exact getMMI_of_bandContains _ (by norm_num [mmiIV]) _ mmiIV_mem
        (by simp only [bandContains, mmiIV, EReal.coe_lt_coe_iff]; norm_num)
    · exact getMMI_of_bandContains _ (by norm_num [mmiV]) _ mmiV_mem
        (by simp only [bandContains, mmiV, EReal.coe_lt_coe_iff]; norm_num)
    · exact getMMI_of_bandContains _ (by norm_num [mmiVI]) _ mmiVI_mem
        (by simp only [bandContains, mmiVI, EReal.coe_lt_coe_iff]; norm_num)
    · exact getMMI_of_bandContains _ (by norm_num [mmiVII]) _ mmiVII_mem
        (by simp only [bandContains, mmiVII, EReal.coe_lt_coe_iff]; norm_num)
    · exact getMMI_of_bandContains _ (by norm_num [mmiVIII]) _ mmiVIII_mem
        (by simp only [bandContains, mmiVIII, EReal.coe_lt_coe_iff]; norm_num)
    · exact getMMI_of_bandContains _ (by norm_num [mmiIX]) _ mmiIX_mem
        (by simp only [bandContains, mmiIX, EReal.coe_lt_coe_iff]; norm_num)
    · exact getMMI_of_bandContains _ (by norm_num [mmiX]) _ mmiX_mem
        (by simp only [bandContains, mmiX, EReal.coe_lt_coe_iff]; norm_num)
    · exact getMMI_of_bandContains _ (by norm_num [mmiXI]) _ mmiXI_mem
        (by simp only [bandContains, mmiXI, EReal.coe_lt_coe_iff]; norm_num)
    · exact getMMI_of_bandContains _ (by norm_num [mmiXII]) _ mmiXII_mem
        (by
          simp only [bandContains, mmiXII]
          exact ⟨le_refl _, EReal.coe_lt_top _⟩)
  · intro y hy
    unfold getMMI
    rw [if_pos hy]

/-- Witness for C6 at the concrete intensity 7.2. -/
theorem getMMI_partition_witness :
    (∃! e, e ∈ MMI_SCALE ∧ bandContains e 7.2) ∧
    (∀ e, e ∈ MMI_SCALE → bandContains e 7.2 → getMMI 7.2 = e) ∧
    (∀ e, e ∈ MMI_SCALE → getMMI e.minIntensity = e) ∧
    (∀ y : ℝ, y < 0 → getMMI y = mmiI) ∧
    jsGetMMI none = mmiI :=
  getMMI_partition 7.2 (by norm_num)

lemma feltRadiusLoop_invariant (m d t : ℝ) :
    ∀ (fuel : ℕ) (lo hi : ℝ), lo ≤ hi →
      lo ≤ (feltRadiusLoop m d t fuel lo hi).1 ∧
      (feltRadiusLoop m d t fuel lo hi).1 ≤ (feltRadiusLoop m d t fuel lo hi).2.1 ∧
      (feltRadiusLoop m d t fuel lo hi).2.1 ≤ hi ∧
      (feltRadiusLoop m d t fuel lo hi).2.2 ≤ fuel ∧
      ((feltRadiusLoop m d t fuel lo hi).2.1 - (feltRadiusLoop m d t fuel lo hi).1 ≤ 1 ∨
        (feltRadiusLoop m d t fuel lo hi).2.2 = fuel) := by
  intro fuel
  induction fuel with
  | zero =>
    intro lo hi h
    rw [feltRadiusLoop]
    exact ⟨le_rfl, h, le_rfl, le_rfl, Or.inr rfl⟩
  | succ n ih =>
    intro lo hi h
    rw [feltRadiusLoop]
    dsimp only
    split_ifs with hgap hint
    · have hmid : (lo + hi) / 2 ≤ hi := by linarith
      obtain ⟨a1, a2, a3, a4, a5⟩ := ih ((lo + hi) / 2) hi hmid
      dsimp only
      refine ⟨by linarith, a2, a3, by omega, ?_⟩
      rcases a5 with h5 | h5
      · exact Or.inl h5
      · exact Or.inr (by omega)
    · have hmid : lo ≤ (lo + hi) / 2 := by linarith
      obtain ⟨a1, a2, a3, a4, a5⟩ := ih lo ((lo + hi) / 2) hmid
      dsimp only
      refine ⟨a1, a2, by linarith, by omega, ?_⟩
      rcases a5 with h5 | h5
      · exact Or.inl h5
      · exact Or.inr (by omega)
    · dsimp only
      exact ⟨le_rfl, h, le_rfl, by omega, Or.inl (by linarith)⟩

/-- C9: for every target intensity (and any valid magnitude/depth), the
bisection of `estimateFeltRadius` over [0, 5000] performs at most 50
iterations, stops earlier once the bracket is within 1 km, keeps the bracket
inside [0, 5000], and the function returns the midpoint of the final
bracket. -/
theorem estimateFeltRadius_spec (m d t : ℝ)
    (hm0 : 0 ≤ m) (hm10 : m ≤ 10) (hd0 : 0 ≤ d) (hd700 : d ≤ 700) :
    ∃ lo hi n, feltRadiusLoop m d t 50 0 5000 = (lo, hi, n) ∧
      n ≤ 50 ∧ (hi - lo ≤ 1 ∨ n = 50) ∧ 0 ≤ lo ∧ lo ≤ hi ∧ hi ≤ 5000 ∧
      estimateFeltRadius m d t = (lo + hi) / 2 := by
  obtain ⟨a1, a2, a3, a4, a5⟩ := feltRadiusLoop_invariant m d t 50 0 5000 (by norm_num)
  exact ⟨(feltRadiusLoop m d t 50 0 5000).1, (feltRadiusLoop m d t 50 0 5000).2.1,
    (feltRadiusLoop m d t 50 0 5000).2.2, rfl, a4, a5, a1, a2, a3, rfl⟩

/-- Witness for C9 at the concrete inputs (8.8, 35, 3). -/
theorem estimateFeltRadius_spec_witness :
    ∃ lo hi n, feltRadiusLoop 8.8 35 3 50 0 5000 = (lo, hi, n) ∧
      n ≤ 50 ∧ (hi - lo ≤ 1 ∨ n = 50) ∧ 0 ≤ lo ∧ lo ≤ hi ∧ hi ≤ 5000 ∧
      estimateFeltRadius 8.8 35 3 = (lo + hi) / 2 :=
  estimateFeltRadius_spec 8.8 35 3 (by norm_num) (by norm_num) (by norm_num) (by norm_num)

end ChileQuake
